import Mathlib

/-!
Shallow embedding of `src/supabase-studio/index.ts`, the `SupabaseStudio`
CDK construct of the `supabase-on-aws` repository.

The construct is a purely declarative composition: given its props (the
`SupabaseStudioProps` interface) and the deployment-time context (CDK
pseudo-parameters and the Amplify-generated application id), it produces a
fixed configuration graph: a GitHub source provider, an IAM role, three read
grants, a build spec, the Amplify App with its environment variables, custom
rules and platform override, the production branch, the SSR logging policy,
and the production branch URL.  We embed it as a pure function
`supabaseStudio : SupabaseStudioProps → DeployCtx → SupabaseStudioResult`.
Strings are modelled as Lean `String`; template interpolation as `++`.
-/

/-- A reference to an external Secrets Manager secret (the `ISecret` input).
`secretValue` models the value stored in the external service; the construct
only ever reads `secretArn`. -/
structure SecretRef where
  secretArn : String
  secretValue : String
  deriving DecidableEq

/-- A reference to an external SSM string parameter (the `StringParameter`
inputs). `value` models the stored parameter value; the construct only ever
reads `parameterName` and `region` (the `env.region` attribute). -/
structure StringParameterRef where
  parameterName : String
  region : String
  value : String
  deriving DecidableEq

/-- The `SupabaseStudioProps` interface (index.ts lines 10-17). -/
structure SupabaseStudioProps where
  sourceBranch : Option String
  appRoot : Option String
  supabaseUrl : String
  dbSecret : SecretRef
  anonKey : StringParameterRef
  serviceRoleKey : StringParameterRef
  deriving DecidableEq

/-- Deployment-time context: values that are CloudFormation tokens in the
source (`cdk.Aws.PARTITION`, `cdk.Aws.REGION`, `cdk.Aws.ACCOUNT_ID`), the
construct-tree path `this.node.path`, and the Amplify-generated application
identifier `this.app.appId`. -/
structure DeployCtx where
  partition : String
  region : String
  account : String
  appId : String
  nodePath : String
  deriving DecidableEq

/-- A CDK `SecretValue`: either an unresolved reference into Secrets Manager
(`cdk.SecretValue.secretsManager(id, { jsonField })`) or an inlined plaintext
value.  The construct only ever builds the reference form. -/
inductive SecretValue where
  | secretsManagerRef (secretId : String) (jsonField : String)
  | plaintext (value : String)
  deriving DecidableEq

/-- The `GitHubSourceCodeProvider` (index.ts lines 37-43). -/
structure GitHubSourceCodeProvider where
  owner : String
  repository : String
  oauthToken : SecretValue
  deriving DecidableEq

/-- One IAM policy statement (sid, actions, resource ARNs). -/
structure PolicyStatement where
  sid : String
  actions : List String
  resources : List String
  deriving DecidableEq

/-- A named IAM policy. -/
structure Policy where
  policyName : String
  statements : List PolicyStatement
  deriving DecidableEq

/-- The IAM role for SSR app logging (index.ts lines 46-50). -/
structure Role where
  description : String
  path : String
  assumedBy : String
  deriving DecidableEq

/-- Artifacts section of the build spec. -/
structure Artifacts where
  baseDirectory : String
  files : List String
  deriving DecidableEq

/-- Cache section of the build spec. -/
structure CacheSpec where
  paths : List String
  deriving DecidableEq

/-- The two build-spec phases that the source defines (`preBuild`, `build`;
the `postBuild` phase is commented out in the source). -/
structure Phases where
  preBuildCommands : List String
  buildCommands : List String
  deriving DecidableEq

/-- One entry of `applications` in the build spec. -/
structure AppBuildSpec where
  appRoot : String
  phases : Phases
  artifacts : Artifacts
  cache : CacheSpec
  deriving DecidableEq

/-- The build spec document (`BuildSpec.fromObjectToYaml`, lines 58-105). -/
structure BuildSpec where
  version : Nat
  applications : List AppBuildSpec
  deriving DecidableEq

/-- Amplify redirect status codes (`amplify.RedirectStatus`). -/
inductive RedirectStatus where
  | rewrite
  | permanentRedirect
  | temporaryRedirect
  | notFound
  | notFoundRewrite
  deriving DecidableEq

/-- One Amplify custom routing rule. -/
structure CustomRule where
  source : String
  target : String
  status : RedirectStatus
  deriving DecidableEq

/-- The Amplify App (index.ts lines 107-131).  `platform` records the value
set by the post-creation `addPropertyOverride` call; `appId` and
`defaultDomain` are the platform-assigned attributes the source reads back. -/
structure AmplifyApp where
  appName : String
  sourceCodeProvider : GitHubSourceCodeProvider
  buildSpec : BuildSpec
  environmentVariables : List (String × String)
  customRules : List CustomRule
  platform : String
  appId : String
  defaultDomain : String
  deriving DecidableEq

/-- The production branch (index.ts lines 133-143).  `framework` records the
post-creation `addPropertyOverride` value. -/
structure Branch where
  branchName : String
  stage : String
  autoBuild : Bool
  environmentVariables : List (String × String)
  framework : String
  deriving DecidableEq

/-- `branch.addEnvironment(name, value)` (index.ts line 142): appends one
more entry to the branch environment-variable store. -/
def Branch.addEnvironment (b : Branch) (name value : String) : Branch :=
  { b with environmentVariables := b.environmentVariables ++ [(name, value)] }

/-- Everything the constructor produces. -/
structure SupabaseStudioResult where
  gitHubProvider : GitHubSourceCodeProvider
  role : Role
  readGrants : List String
  buildSpec : BuildSpec
  app : AmplifyApp
  prodBranch : Branch
  amplifySSRLoggingPolicy : Policy
  prodBranchUrl : String
  deriving DecidableEq

/-- `const buildImage = ...` (index.ts line 32). -/
def buildImage : String := "public.ecr.aws/sam/build-nodejs22.x:1.140.0-20250605234713"

/-- `const appRoot = 'apps/studio'` (index.ts line 33).  Note: this local
constant shadows the optional `props.appRoot`, which is never read. -/
def appRoot : String := "apps/studio"

/-- The GitHub source provider (index.ts lines 37-43). -/
def gitHubProvider : GitHubSourceCodeProvider :=
  { owner := "ProvorovOleksii"
  , repository := "supabase"
  , oauthToken := SecretValue.secretsManagerRef "github-token" "token" }

/-- The SSR-logging service role (index.ts lines 46-50). -/
def role : Role :=
  { description := "The service role that will be used by AWS Amplify for SSR app logging."
  , path := "/service-role/"
  , assumedBy := "amplify.amazonaws.com" }

/-- The build spec (index.ts lines 58-105), inlined exactly as in the source:
eleven pre-build commands, two build commands, the `.next/standalone`
artifact base directory, and the `node_modules` cache path. -/
def buildSpec : BuildSpec :=
  { version := 1
  , applications :=
    [ { appRoot := appRoot
      , phases :=
        { preBuildCommands :=
          [ "echo POSTGRES_PASSWORD=$(aws secretsmanager get-secret-value --secret-id $DB_SECRET_ARN --query SecretString | jq -r . | jq -r .password) >> .env.production"
          , "echo SUPABASE_ANON_KEY=$(aws ssm get-parameter --region $SUPABASE_REGION --name $ANON_KEY_NAME --query Parameter.Value) >> .env.production"
          , "echo SUPABASE_SERVICE_KEY=$(aws ssm get-parameter --region $SUPABASE_REGION --name $SERVICE_KEY_NAME --query Parameter.Value) >> .env.production"
          , "env | grep -e STUDIO_PG_META_URL >> .env.production"
          , "env | grep -e SUPABASE_ >> .env.production"
          , "env | grep -e NEXT_PUBLIC_ >> .env.production"
          , "cd ../"
          , "export NODE_OPTIONS=\x27--max-old-space-size=12000\x27"
          , "corepack enable"
          , "corepack prepare pnpm@latest --activate"
          , "pnpm install --config.ignore-engines=true" ]
        , buildCommands :=
          [ "pnpm exec turbo run build --filter=studio..."
          , "pnpm install --prod" ] }
      , artifacts := { baseDirectory := ".next/standalone", files := ["**/*"] }
      , cache := { paths := ["node_modules/**/*"] } } ] }

/-- The App-level environment variables (index.ts lines 112-126), in source
order. -/
def appEnvironmentVariables (props : SupabaseStudioProps) : List (String × String) :=
  [ ("NODE_OPTIONS", "--max-old-space-size=12000")
  , ("AMPLIFY_DIFF_DEPLOY", "false")
  , ("_CUSTOM_IMAGE", buildImage)
  , ("STUDIO_PG_META_URL", props.supabaseUrl ++ "/pg")
  , ("SUPABASE_URL", props.supabaseUrl)
  , ("SUPABASE_PUBLIC_URL", props.supabaseUrl)
  , ("SUPABASE_REGION", props.serviceRoleKey.region)
  , ("DB_SECRET_ARN", props.dbSecret.secretArn)
  , ("ANON_KEY_NAME", props.anonKey.parameterName)
  , ("SERVICE_KEY_NAME", props.serviceRoleKey.parameterName)
  , ("AMPLIFY_MONOREPO_APP_ROOT", appRoot) ]

/-- Modelled from the spec: the Amplify platform assigns every application a
default domain that embeds its generated identifier (the code only reads the
`this.app.defaultDomain` attribute back from the platform; the domain format
itself is platform behaviour, not code of this repository). -/
def defaultDomainOf (appId : String) : String := appId ++ ".amplifyapp.com"

/-- The production branch (index.ts lines 133-143): created with branch name
`master`, stage `PRODUCTION`, auto-build, the two branch-scoped environment
variables, then mutated by `addEnvironment` (line 142) and the `Framework`
property override (line 143). -/
def prodBranch (ctx : DeployCtx) : Branch :=
  Branch.addEnvironment
    { branchName := "master"
    , stage := "PRODUCTION"
    , autoBuild := true
    , environmentVariables :=
      [ ("NEXT_PUBLIC_SITE_URL", "https://main." ++ ctx.appId ++ ".amplifyapp.com")
      , ("AMPLIFY_MONOREPO_APP_ROOT", appRoot) ]
    , framework := "Next.js - SSR" }
    "AMPLIFY_MONOREPO_APP_ROOT" appRoot

/-- The SSR logging policy (index.ts lines 148-167): three statements, with
the `cdk.Aws` pseudo-parameters and `this.app.appId` interpolated into the
resource ARNs exactly as in the source template strings. -/
def amplifySSRLoggingPolicy (ctx : DeployCtx) : Policy :=
  { policyName := "AmplifySSRLoggingPolicy-" ++ ctx.appId
  , statements :=
    [ { sid := "PushLogs"
      , actions := ["logs:CreateLogStream", "logs:PutLogEvents"]
      , resources := ["arn:" ++ ctx.partition ++ ":logs:" ++ ctx.region ++ ":" ++ ctx.account ++ ":log-group:/aws/amplify/" ++ ctx.appId ++ ":log-stream:*"] }
    , { sid := "CreateLogGroup"
      , actions := ["logs:CreateLogGroup"]
      , resources := ["arn:" ++ ctx.partition ++ ":logs:" ++ ctx.region ++ ":" ++ ctx.account ++ ":log-group:/aws/amplify/*"] }
    , { sid := "DescribeLogGroups"
      , actions := ["logs:DescribeLogGroups"]
      , resources := ["arn:" ++ ctx.partition ++ ":logs:" ++ ctx.region ++ ":" ++ ctx.account ++ ":log-group:*"] } ] }

/-- The whole constructor body (index.ts lines 28-171) as a pure function of
the props and the deployment context.  `readGrants` records, in source order,
the identifier of each resource passed to a `grantRead` call (lines 53-55). -/
def supabaseStudio (props : SupabaseStudioProps) (ctx : DeployCtx) : SupabaseStudioResult :=
  { gitHubProvider := gitHubProvider
  , role := role
  , readGrants := [props.dbSecret.secretArn, props.anonKey.parameterName, props.serviceRoleKey.parameterName]
  , buildSpec := buildSpec
  , app :=
    { appName := String.replace ctx.nodePath "/" ""
    , sourceCodeProvider := gitHubProvider
    , buildSpec := buildSpec
    , environmentVariables := appEnvironmentVariables props
    , customRules := [{ source := "/<*>", target := "/index.html", status := RedirectStatus.notFoundRewrite }]
    , platform := "WEB_COMPUTE"
    , appId := ctx.appId
    , defaultDomain := defaultDomainOf ctx.appId }
  , prodBranch := prodBranch ctx
  , amplifySSRLoggingPolicy := amplifySSRLoggingPolicy ctx
  , prodBranchUrl := "https://" ++ (prodBranch ctx).branchName ++ "." ++ defaultDomainOf ctx.appId }

/-- The three credential resources that receive a `grantRead` call. -/
inductive CredentialRes where
  | dbSecret
  | anonKey
  | serviceRoleKey
  deriving DecidableEq

/-- Resource-policy state of the three external credential stores together
with the execution identity's own inline policy statements. -/
structure GrantState where
  dbSecretResourcePolicy : List String
  anonKeyResourcePolicy : List String
  serviceKeyResourcePolicy : List String
  roleInlineStatements : List PolicyStatement
  deriving DecidableEq

/-- Modelled from the spec: the implementation of `grantRead` lives in the
external `aws-cdk-lib` IAM/SecretsManager/SSM libraries, not in this
repository.  Per the spec, each grant call "mutates the external
secret/parameter's own resource policy to permit this identity; it does not
mutate the identity's own inline policy".  `principal` is the granted
identity. -/
def grantRead (r : CredentialRes) (principal : String) (st : GrantState) : GrantState :=
  match r with
  | CredentialRes.dbSecret =>
      { st with dbSecretResourcePolicy := st.dbSecretResourcePolicy ++ [principal] }
  | CredentialRes.anonKey =>
      { st with anonKeyResourcePolicy := st.anonKeyResourcePolicy ++ [principal] }
  | CredentialRes.serviceRoleKey =>
      { st with serviceKeyResourcePolicy := st.serviceKeyResourcePolicy ++ [principal] }

/-- The three grant calls of index.ts lines 53-55, in source order. -/
def applyGrants (principal : String) (st : GrantState) : GrantState :=
  grantRead CredentialRes.serviceRoleKey principal
    (grantRead CredentialRes.anonKey principal
      (grantRead CredentialRes.dbSecret principal st))

/-- Boolean substring test on character lists: `occursIn pat s` is true iff
`pat` occurs contiguously in `s`. -/
def occursIn (pat : List Char) : List Char → Bool
  | [] => pat.isEmpty
  | c :: rest => List.isPrefixOf pat (c :: rest) || occursIn pat rest

/-- Boolean substring test on strings. -/
def strOccursIn (pat s : String) : Bool := occursIn pat.data s.data

/-- Empty default policy statement, used as the `List.getD` fallback. -/
def dfltStatement : PolicyStatement := { sid := "", actions := [], resources := [] }

/-- Empty default application build spec, used as the `List.getD` fallback. -/
def dfltAppSpec : AppBuildSpec :=
  { appRoot := ""
  , phases := { preBuildCommands := [], buildCommands := [] }
  , artifacts := { baseDirectory := "", files := [] }
  , cache := { paths := [] } }

/-- A concrete deployment context used for witnesses and counterexamples. -/
def ctx0 : DeployCtx :=
  { partition := "aws"
  , region := "us-east-1"
  , account := "123456789012"
  , appId := "d35u66p5p1o8yz"
  , nodePath := "MyStack/SupabaseStudio" }

/-- A concrete set of props used for witnesses and counterexamples. -/
def props0 : SupabaseStudioProps :=
  { sourceBranch := none
  , appRoot := none
  , supabaseUrl := "https://supabase.example.com"
  , dbSecret :=
    { secretArn := "arn:aws:secretsmanager:us-east-1:123456789012:secret:SupabaseDbSecret-AbCdEf"
    , secretValue := "hunter2" }
  , anonKey :=
    { parameterName := "/supabase/anon-key", region := "us-east-1", value := "anon-jwt-value" }
  , serviceRoleKey :=
    { parameterName := "/supabase/service-role-key", region := "us-east-1", value := "service-jwt-value" } }

/-- `props0` with different stored secret/parameter values only. -/
def props0v : SupabaseStudioProps :=
  { props0 with
    dbSecret := { props0.dbSecret with secretValue := "different-password" }
  , anonKey := { props0.anonKey with value := "different-anon-jwt" }
  , serviceRoleKey := { props0.serviceRoleKey with value := "different-service-jwt" } }

/-- `occursIn` with an empty pattern always holds. -/
theorem occursIn_nil (s : List Char) : occursIn [] s = true := by
  cases s <;> simp [occursIn, List.isPrefixOf]

/-- A pattern occurs in any list it is a prefix of. -/
theorem occursIn_left (p b : List Char) : occursIn p (p ++ b) = true := by
  cases p with
  | nil => exact occursIn_nil b
  | cons c p2 =>
      show occursIn (c :: p2) (c :: (p2 ++ b)) = true
      simp [occursIn, List.isPrefixOf_iff_prefix, List.prefix_append]

/-- An occurrence survives prepending any list. -/
theorem occursIn_append_right (a : List Char) {p s : List Char}
    (h : occursIn p s = true) : occursIn p (a ++ s) = true := by
  induction a with
  | nil => simpa using h
  | cons c a2 ih => simp [occursIn, ih]

/-- Two strings with a character-level mismatch inside their distinct literal
prefixes `https://main.` and `https://master.` are never equal, whatever
follows. -/
theorem main_master_prefix_ne (x y : String) :
    "https://main." ++ x ++ ".amplifyapp.com" ≠ "https://" ++ "master" ++ "." ++ y := by
  intro h
  have h2 : ("https://main.".data ++ x.data) ++ ".amplifyapp.com".data
      = (("https://".data ++ "master".data) ++ ".".data) ++ y.data := by
    have h1 := congrArg String.data h
    simpa only [String.data_append] using h1
  have h3 : List.getD (("https://main.".data ++ x.data) ++ ".amplifyapp.com".data) 10 'a'
      = List.getD ((("https://".data ++ "master".data) ++ ".".data) ++ y.data) 10 'a' :=
    congrArg (fun l => List.getD l 10 'a') h2
  have hA : ("https://main.".data : List Char).length = 13 := by decide
  rw [List.getD_append ("https://main.".data ++ x.data) ".amplifyapp.com".data 'a' 10
        (by rw [List.length_append, hA]; omega),
      List.getD_append "https://main.".data x.data 'a' 10 (by rw [hA]; omega),
      List.getD_append (("https://".data ++ "master".data) ++ ".".data) y.data 'a' 10 (by decide)]
    at h3
  exact absurd h3 (by decide)

/-- C1 (counterexample): at the concrete deployment context `ctx0`, the second
Logging Policy statement (`CreateLogGroup`) has the resource ARN
`...log-group:/aws/amplify/*`, in which the application's generated
identifier does not occur at all — refuting the claim that each of the first
two statements embeds this application's own identifier in its resource
ARNs. -/
theorem C1_counterexample :
    ((supabaseStudio props0 ctx0).amplifySSRLoggingPolicy.statements.getD 1 dfltStatement).resources =
      ["arn:aws:logs:us-east-1:123456789012:log-group:/aws/amplify/*"] ∧
    strOccursIn ctx0.appId "arn:aws:logs:us-east-1:123456789012:log-group:/aws/amplify/*" = false := by
  exact ⟨rfl, by decide⟩

/-- C1 (amended): for every input, the first Logging Policy statement
(create-log-stream/put-log-events) is scoped to this application's own log
group — its single resource ARN embeds the generated application identifier,
with a wildcard only over log streams inside that group; the second
(create-log-group) statement is scoped to the platform-wide log prefix
`/aws/amplify/*`, not to this application's identifier; the third
(describe-log-groups) statement is account-wide over all log groups. -/
theorem C1_logging_policy_scope (props : SupabaseStudioProps) (ctx : DeployCtx) :
    (supabaseStudio props ctx).amplifySSRLoggingPolicy = amplifySSRLoggingPolicy ctx ∧
    ((amplifySSRLoggingPolicy ctx).statements.getD 0 dfltStatement).resources =
      ["arn:" ++ ctx.partition ++ ":logs:" ++ ctx.region ++ ":" ++ ctx.account ++ ":log-group:/aws/amplify/" ++ ctx.appId ++ ":log-stream:*"] ∧
    strOccursIn ctx.appId (((amplifySSRLoggingPolicy ctx).statements.getD 0 dfltStatement).resources.getD 0 "") = true ∧
    ((amplifySSRLoggingPolicy ctx).statements.getD 1 dfltStatement).resources =
      ["arn:" ++ ctx.partition ++ ":logs:" ++ ctx.region ++ ":" ++ ctx.account ++ ":log-group:/aws/amplify/*"] ∧
    ((amplifySSRLoggingPolicy ctx).statements.getD 2 dfltStatement).resources =
      ["arn:" ++ ctx.partition ++ ":logs:" ++ ctx.region ++ ":" ++ ctx.account ++ ":log-group:*"] := by
  refine ⟨rfl, rfl, ?_, rfl, rfl⟩
  show occursIn ctx.appId.data ("arn:" ++ ctx.partition ++ ":logs:" ++ ctx.region ++ ":" ++ ctx.account ++ ":log-group:/aws/amplify/" ++ ctx.appId ++ ":log-stream:*").data = true
  simp only [String.data_append, List.append_assoc]
  exact occursIn_append_right _ (occursIn_append_right _ (occursIn_append_right _
    (occursIn_append_right _ (occursIn_append_right _ (occursIn_append_right _
      (occursIn_append_right _ (occursIn_left _ _)))))))

/-- C2 (counterexample): at the concrete inputs `props0`/`ctx0`, none of the
three credential identifiers (the database secret ARN and the two parameter
names) occurs verbatim in the corresponding pre-build fetch command — the
commands reference the credentials only indirectly, through the shell
variables `$DB_SECRET_ARN`, `$ANON_KEY_NAME` and `$SERVICE_KEY_NAME`. -/
theorem C2_counterexample :
    strOccursIn props0.dbSecret.secretArn
      (((supabaseStudio props0 ctx0).buildSpec.applications.getD 0 dfltAppSpec).phases.preBuildCommands.getD 0 "") = false ∧
    strOccursIn props0.anonKey.parameterName
      (((supabaseStudio props0 ctx0).buildSpec.applications.getD 0 dfltAppSpec).phases.preBuildCommands.getD 1 "") = false ∧
    strOccursIn props0.serviceRoleKey.parameterName
      (((supabaseStudio props0 ctx0).buildSpec.applications.getD 0 dfltAppSpec).phases.preBuildCommands.getD 2 "") = false := by
  exact ⟨by decide, by decide, by decide⟩

/-- C2 (amended): for every input, the database-secret ARN and the two
parameter names appear verbatim both in the Execution Identity's read grants
(in source order) and in the Hosting Application's environment-variable map
under the keys `DB_SECRET_ARN`, `ANON_KEY_NAME` and `SERVICE_KEY_NAME`; the
three pre-build fetch commands reference exactly those environment-variable
names (`$DB_SECRET_ARN`, `$ANON_KEY_NAME`, `$SERVICE_KEY_NAME`), so the two
channels agree on each identifier through that one level of indirection
rather than verbatim in the command text. -/
theorem C2_credential_identifier_consistency (props : SupabaseStudioProps) (ctx : DeployCtx) :
    (supabaseStudio props ctx).readGrants =
      [props.dbSecret.secretArn, props.anonKey.parameterName, props.serviceRoleKey.parameterName] ∧
    List.lookup "DB_SECRET_ARN" (supabaseStudio props ctx).app.environmentVariables = some props.dbSecret.secretArn ∧
    List.lookup "ANON_KEY_NAME" (supabaseStudio props ctx).app.environmentVariables = some props.anonKey.parameterName ∧
    List.lookup "SERVICE_KEY_NAME" (supabaseStudio props ctx).app.environmentVariables = some props.serviceRoleKey.parameterName ∧
    strOccursIn "$DB_SECRET_ARN" (((supabaseStudio props ctx).buildSpec.applications.getD 0 dfltAppSpec).phases.preBuildCommands.getD 0 "") = true ∧
    strOccursIn "$ANON_KEY_NAME" (((supabaseStudio props ctx).buildSpec.applications.getD 0 dfltAppSpec).phases.preBuildCommands.getD 1 "") = true ∧
    strOccursIn "$SERVICE_KEY_NAME" (((supabaseStudio props ctx).buildSpec.applications.getD 0 dfltAppSpec).phases.preBuildCommands.getD 2 "") = true := by
  refine ⟨rfl, rfl, rfl, rfl, ?_, ?_, ?_⟩
  · show strOccursIn "$DB_SECRET_ARN" ((buildSpec.applications.getD 0 dfltAppSpec).phases.preBuildCommands.getD 0 "") = true
    decide
  · show strOccursIn "$ANON_KEY_NAME" ((buildSpec.applications.getD 0 dfltAppSpec).phases.preBuildCommands.getD 1 "") = true
    decide
  · show strOccursIn "$SERVICE_KEY_NAME" ((buildSpec.applications.getD 0 dfltAppSpec).phases.preBuildCommands.getD 2 "") = true
    decide

/-- C3: for every input, the exposed production branch URL is exactly
`https://` followed by the production branch name, a dot, and the
application's assigned default domain; the branch name is `master`, the
default domain embeds the generated application identifier, the identifier
occurs in the URL, and the URL is identical whatever the props are (it is
derived, never independently configurable). -/
theorem C3_prod_branch_url (props : SupabaseStudioProps) (ctx : DeployCtx) :
    (supabaseStudio props ctx).prodBranchUrl =
      "https://" ++ (supabaseStudio props ctx).prodBranch.branchName ++ "." ++ (supabaseStudio props ctx).app.defaultDomain ∧
    (supabaseStudio props ctx).prodBranch.branchName = "master" ∧
    (supabaseStudio props ctx).app.defaultDomain = ctx.appId ++ ".amplifyapp.com" ∧
    strOccursIn ctx.appId (supabaseStudio props ctx).prodBranchUrl = true ∧
    ∀ props2 : SupabaseStudioProps, (supabaseStudio props2 ctx).prodBranchUrl = (supabaseStudio props ctx).prodBranchUrl := by
  refine ⟨rfl, rfl, rfl, ?_, fun props2 => rfl⟩
  show occursIn ctx.appId.data ("https://" ++ "master" ++ "." ++ (ctx.appId ++ ".amplifyapp.com")).data = true
  simp only [String.data_append, List.append_assoc]
  exact occursIn_append_right _ (occursIn_append_right _ (occursIn_append_right _ (occursIn_left _ _)))

/-- C4: for every input, the monorepo app-root string in the build spec's
`appRoot` field, in the Hosting Application's environment variables under
`AMPLIFY_MONOREPO_APP_ROOT`, and in the Production Branch's environment
overlay under the same key are all the identical string (the shared local
constant `appRoot`). -/
theorem C4_app_root_consistency (props : SupabaseStudioProps) (ctx : DeployCtx) :
    ((supabaseStudio props ctx).buildSpec.applications.getD 0 dfltAppSpec).appRoot = appRoot ∧
    List.lookup "AMPLIFY_MONOREPO_APP_ROOT" (supabaseStudio props ctx).app.environmentVariables = some appRoot ∧
    List.lookup "AMPLIFY_MONOREPO_APP_ROOT" (supabaseStudio props ctx).prodBranch.environmentVariables = some appRoot := by
  exact ⟨rfl, rfl, rfl⟩

/-- C5: for every input, the generated build pipeline definition has exactly
the specified structure: version 1, a single application entry; eleven
pre-build commands that fetch the database password from Secrets Manager and
the two API keys from SSM appending each to `.env.production`, copy through
process environment variables matching `STUDIO_PG_META_URL`, `SUPABASE_` and
`NEXT_PUBLIC_`, change directory to the monorepo root, raise the Node memory
ceiling, enable and activate pnpm via corepack, and install dependencies
ignoring engine mismatches; two build commands running the turbo build
filtered to the studio app then reinstalling production-only; artifacts with
base directory `.next/standalone` selecting all files; and a cache persisting
`node_modules`. -/
theorem C5_build_pipeline_structure (props : SupabaseStudioProps) (ctx : DeployCtx) :
    (supabaseStudio props ctx).buildSpec = buildSpec ∧
    buildSpec.version = 1 ∧
    buildSpec.applications.length = 1 ∧
    ((buildSpec.applications.getD 0 dfltAppSpec).phases.preBuildCommands.length = 11 ∧
      strOccursIn "aws secretsmanager get-secret-value --secret-id $DB_SECRET_ARN" ((buildSpec.applications.getD 0 dfltAppSpec).phases.preBuildCommands.getD 0 "") = true ∧
      strOccursIn ">> .env.production" ((buildSpec.applications.getD 0 dfltAppSpec).phases.preBuildCommands.getD 0 "") = true ∧
      strOccursIn "aws ssm get-parameter" ((buildSpec.applications.getD 0 dfltAppSpec).phases.preBuildCommands.getD 1 "") = true ∧
      strOccursIn ">> .env.production" ((buildSpec.applications.getD 0 dfltAppSpec).phases.preBuildCommands.getD 1 "") = true ∧
      strOccursIn "aws ssm get-parameter" ((buildSpec.applications.getD 0 dfltAppSpec).phases.preBuildCommands.getD 2 "") = true ∧
      strOccursIn ">> .env.production" ((buildSpec.applications.getD 0 dfltAppSpec).phases.preBuildCommands.getD 2 "") = true ∧
      (buildSpec.applications.getD 0 dfltAppSpec).phases.preBuildCommands.getD 3 "" = "env | grep -e STUDIO_PG_META_URL >> .env.production" ∧
      (buildSpec.applications.getD 0 dfltAppSpec).phases.preBuildCommands.getD 4 "" = "env | grep -e SUPABASE_ >> .env.production" ∧
      (buildSpec.applications.getD 0 dfltAppSpec).phases.preBuildCommands.getD 5 "" = "env | grep -e NEXT_PUBLIC_ >> .env.production" ∧
      (buildSpec.applications.getD 0 dfltAppSpec).phases.preBuildCommands.getD 6 "" = "cd ../" ∧
      strOccursIn "--max-old-space-size" ((buildSpec.applications.getD 0 dfltAppSpec).phases.preBuildCommands.getD 7 "") = true ∧
      (buildSpec.applications.getD 0 dfltAppSpec).phases.preBuildCommands.getD 8 "" = "corepack enable" ∧
      strOccursIn "--activate" ((buildSpec.applications.getD 0 dfltAppSpec).phases.preBuildCommands.getD 9 "") = true ∧
      (buildSpec.applications.getD 0 dfltAppSpec).phases.preBuildCommands.getD 10 "" = "pnpm install --config.ignore-engines=true") ∧
    (buildSpec.applications.getD 0 dfltAppSpec).phases.buildCommands =
      ["pnpm exec turbo run build --filter=studio...", "pnpm install --prod"] ∧
    (buildSpec.applications.getD 0 dfltAppSpec).artifacts = { baseDirectory := ".next/standalone", files := ["**/*"] } ∧
    (buildSpec.applications.getD 0 dfltAppSpec).cache.paths = ["node_modules/**/*"] := by
  exact ⟨rfl, rfl, rfl, by decide, rfl, rfl, rfl⟩

/-- C6: for every input, the Hosting Application's compute platform is set to
`WEB_COMPUTE` by the post-creation override, and the application carries
exactly one catch-all routing rule rewriting any unmatched path to
`/index.html` with the not-found-rewrite status; no input value can remove or
alter either setting. -/
theorem C6_platform_override_and_fallback_rule (props : SupabaseStudioProps) (ctx : DeployCtx) :
    (supabaseStudio props ctx).app.platform = "WEB_COMPUTE" ∧
    (supabaseStudio props ctx).app.customRules =
      [{ source := "/<*>", target := "/index.html", status := RedirectStatus.notFoundRewrite }] :=
  ⟨rfl, rfl⟩

/-- C7: each of the three read-grant calls mutates only the granted
resource's own resource policy (appending the granted principal) and leaves
the other two resources' policies and the Execution Identity's own inline
policy statements unchanged; the composed sequence of the three grants also
leaves the inline policy unchanged.  The `grantRead` semantics is modelled
from the spec, since the grant implementation lives in the external
`aws-cdk-lib`, not in this repository. -/
theorem C7_grant_read_frame (principal : String) (st : GrantState) :
    ((grantRead CredentialRes.dbSecret principal st).roleInlineStatements = st.roleInlineStatements ∧
      (grantRead CredentialRes.dbSecret principal st).dbSecretResourcePolicy = st.dbSecretResourcePolicy ++ [principal] ∧
      (grantRead CredentialRes.dbSecret principal st).anonKeyResourcePolicy = st.anonKeyResourcePolicy ∧
      (grantRead CredentialRes.dbSecret principal st).serviceKeyResourcePolicy = st.serviceKeyResourcePolicy) ∧
    ((grantRead CredentialRes.anonKey principal st).roleInlineStatements = st.roleInlineStatements ∧
      (grantRead CredentialRes.anonKey principal st).anonKeyResourcePolicy = st.anonKeyResourcePolicy ++ [principal] ∧
      (grantRead CredentialRes.anonKey principal st).dbSecretResourcePolicy = st.dbSecretResourcePolicy ∧
      (grantRead CredentialRes.anonKey principal st).serviceKeyResourcePolicy = st.serviceKeyResourcePolicy) ∧
    ((grantRead CredentialRes.serviceRoleKey principal st).roleInlineStatements = st.roleInlineStatements ∧
      (grantRead CredentialRes.serviceRoleKey principal st).serviceKeyResourcePolicy = st.serviceKeyResourcePolicy ++ [principal] ∧
      (grantRead CredentialRes.serviceRoleKey principal st).dbSecretResourcePolicy = st.dbSecretResourcePolicy ∧
      (grantRead CredentialRes.serviceRoleKey principal st).anonKeyResourcePolicy = st.anonKeyResourcePolicy) ∧
    (applyGrants principal st).roleInlineStatements = st.roleInlineStatements :=
  ⟨⟨rfl, rfl, rfl, rfl⟩, ⟨rfl, rfl, rfl, rfl⟩, ⟨rfl, rfl, rfl, rfl⟩, rfl⟩

/-- C8: the produced declarative configuration never contains a stored secret
or parameter value: two runs whose inputs agree on all identifiers (ARNs,
parameter names, regions, URL, optional props) but differ arbitrarily in the
stored secret/parameter values produce identical configurations; the
source-binding credential is a named secret-store reference, and the
environment-variable map carries only the secret's ARN and the parameters'
names. -/
theorem C8_no_secret_values_in_config (props1 props2 : SupabaseStudioProps) (ctx : DeployCtx)
    (hsb : props1.sourceBranch = props2.sourceBranch)
    (har : props1.appRoot = props2.appRoot)
    (hurl : props1.supabaseUrl = props2.supabaseUrl)
    (hdb : props1.dbSecret.secretArn = props2.dbSecret.secretArn)
    (han : props1.anonKey.parameterName = props2.anonKey.parameterName)
    (hanr : props1.anonKey.region = props2.anonKey.region)
    (hsk : props1.serviceRoleKey.parameterName = props2.serviceRoleKey.parameterName)
    (hskr : props1.serviceRoleKey.region = props2.serviceRoleKey.region) :
    supabaseStudio props1 ctx = supabaseStudio props2 ctx ∧
    (supabaseStudio props1 ctx).gitHubProvider.oauthToken = SecretValue.secretsManagerRef "github-token" "token" ∧
    List.lookup "DB_SECRET_ARN" (supabaseStudio props1 ctx).app.environmentVariables = some props1.dbSecret.secretArn ∧
    List.lookup "ANON_KEY_NAME" (supabaseStudio props1 ctx).app.environmentVariables = some props1.anonKey.parameterName ∧
    List.lookup "SERVICE_KEY_NAME" (supabaseStudio props1 ctx).app.environmentVariables = some props1.serviceRoleKey.parameterName := by
  obtain ⟨sb1, ar1, u1, ⟨da1, dv1⟩, ⟨an1, anr1, av1⟩, ⟨sn1, snr1, sv1⟩⟩ := props1
  obtain ⟨sb2, ar2, u2, ⟨da2, dv2⟩, ⟨an2, anr2, av2⟩, ⟨sn2, snr2, sv2⟩⟩ := props2
  dsimp only at hsb har hurl hdb han hanr hsk hskr
  subst hsb har hurl hdb han hanr hsk hskr
  exact ⟨rfl, rfl, rfl, rfl, rfl⟩

/-- C8 (witness): `props0` and `props0v` differ (only in the stored
secret/parameter values) and yet yield identical configurations, with the
reference-only credential and identifier-only environment variables. -/
theorem C8_no_secret_values_in_config_witness :
    props0 ≠ props0v ∧
    (supabaseStudio props0 ctx0 = supabaseStudio props0v ctx0 ∧
      (supabaseStudio props0 ctx0).gitHubProvider.oauthToken = SecretValue.secretsManagerRef "github-token" "token" ∧
      List.lookup "DB_SECRET_ARN" (supabaseStudio props0 ctx0).app.environmentVariables = some props0.dbSecret.secretArn ∧
      List.lookup "ANON_KEY_NAME" (supabaseStudio props0 ctx0).app.environmentVariables = some props0.anonKey.parameterName ∧
      List.lookup "SERVICE_KEY_NAME" (supabaseStudio props0 ctx0).app.environmentVariables = some props0.serviceRoleKey.parameterName) :=
  ⟨by decide, C8_no_secret_values_in_config props0 props0v ctx0 rfl rfl rfl rfl rfl rfl rfl rfl⟩

/-- C9: the optional `sourceBranch` and `appRoot` props are accepted but
never read — replacing them by any other values leaves the produced
configuration unchanged; the effective app root is always the constant
`apps/studio` and the production branch name is always `master`. -/
theorem C9_optional_props_unused (props : SupabaseStudioProps) (ctx : DeployCtx)
    (sb ar : Option String) :
    supabaseStudio { props with sourceBranch := sb, appRoot := ar } ctx = supabaseStudio props ctx ∧
    ((supabaseStudio props ctx).buildSpec.applications.getD 0 dfltAppSpec).appRoot = "apps/studio" ∧
    (supabaseStudio props ctx).prodBranch.branchName = "master" :=
  ⟨rfl, rfl, rfl⟩

/-- C10: for every input, the Production Branch's environment variable
`NEXT_PUBLIC_SITE_URL` is `https://main.<appId>.amplifyapp.com`, with the
literal branch segment `main` and literal domain suffix `amplifyapp.com`,
even though the production branch is named `master`; consequently this
branch-scoped site URL never equals the exposed production branch URL
`https://master.<defaultDomain>`. -/
theorem C10_branch_site_url_mismatch (props : SupabaseStudioProps) (ctx : DeployCtx) :
    List.lookup "NEXT_PUBLIC_SITE_URL" (supabaseStudio props ctx).prodBranch.environmentVariables =
      some ("https://main." ++ ctx.appId ++ ".amplifyapp.com") ∧
    (supabaseStudio props ctx).prodBranch.branchName = "master" ∧
    ("https://main." ++ ctx.appId ++ ".amplifyapp.com") ≠ (supabaseStudio props ctx).prodBranchUrl := by
  refine ⟨rfl, rfl, ?_⟩
  exact main_master_prefix_ne ctx.appId (ctx.appId ++ ".amplifyapp.com")
